import Mathlib

/-!
Verification of the per-tick alert arbitration engine in
`selfdrive/controls/lib/events.py`.

The embedding models the module faithfully:

* `stotime` — the seconds-to-time-string formatter;
* `Alert` — the alert record (all constructor fields, plus the three
  fields set in `Alert.__init__` after the parameters: `start_time`,
  `alert_type`, `event_type`);
* `AlertTemplate` — a catalog entry value: either a concrete `Alert`
  or a callback producing one (a faulting callback is modelled as a
  callback returning `Except.error`, mirroring a raised Python
  exception);
* `Events` — the mutable state of the `Events` class: `events`,
  `static_events` and `events_prev`;
* `Events.add`, `Events.clear`, `Events.any`, `Events.create_alerts`,
  `Events.add_from_msg` — the methods operating on that state.

Python dictionaries (`EVENTS`, the per-event alert dictionaries and
`events_prev`) are modelled as association lists preserving insertion
order; `alookup` is dictionary lookup and `assocSet` is dictionary
assignment.  A `KeyError` (raised by `EVENTS[e]` or
`self.events_prev[e]` in `create_alerts`) and an exception escaping an
alert callback are modelled with the `Except PyErr` monad.
`create_alerts` threads the catalog through, because the line
`alert.alert_type = ...` mutates the `Alert` object stored in the
catalog whenever the template is a concrete `Alert` (not a callback).

Durations are rational numbers (the Python floats in the source are
exact decimal constants).
-/

attribute [local semireducible] Rat.mul Rat.add Rat.sub Rat.inv

/-- Event identifiers: values of the external `car.CarEvent.EventName`
enum (`cereal` schema), a fixed finite set of naturals. -/
abbrev EventID := ℕ

/-- Event types (the spec's "categories"): the string constants of
class `ET` (`enable`, `preEnable`, `noEntry`, ...). -/
abbrev Category := String

/-- Python dictionary lookup (`d[k]` / `k in d`), on an association
list holding the dictionary's key-value pairs in insertion order. -/
def alookup {κ ν : Type} [DecidableEq κ] : List (κ × ν) → κ → Option ν
  | [], _ => none
  | kv :: rest, k => if kv.1 = k then some kv.2 else alookup rest k

/-- Python dictionary assignment `d[k] = v`: replaces the value of an
existing key in place, appends the pair when the key is absent. -/
def assocSet {κ ν : Type} [DecidableEq κ] : List (κ × ν) → κ → ν → List (κ × ν)
  | [], k, v => [(k, v)]
  | kv :: rest, k, v => if kv.1 = k then (k, v) :: rest else kv :: assocSet rest k v

/-- Map a function over the values of an association list, keeping keys. -/
def mapSnd {κ β γ : Type} (f : β → γ) (l : List (κ × β)) : List (κ × γ) :=
  l.map (fun kv => (kv.1, f kv.2))

/-- Zero-padding decimal format `f"{n:02d}"` used by `stotime`. -/
def fmt02 (n : ℤ) : String :=
  let s := toString n
  if s.length < 2 then "0" ++ s else s

/-- Translation of the module-level function `stotime`: `divmod` on a
nonnegative integer is Euclidean division, `M = 60`, `H = M * 60`. -/
def stotime (S : ℤ) : String :=
  if S = -2 then "?"
  else if S = -1 then "N/A"
  else if S < 0 then "N/A"
  else if S / (60 * 60) > 0 then
    fmt02 (S / (60 * 60)) ++ ":" ++ fmt02 (S % (60 * 60) / 60) ++ ":" ++ fmt02 (S % (60 * 60) % 60)
  else
    fmt02 (S % (60 * 60) / 60) ++ ":" ++ fmt02 (S % (60 * 60) % 60)

/-- Modelled from the spec: `DT_CTRL`, the control-loop tick duration,
is imported from `common/realtime.py`, which is not part of this file;
the spec fixes the tick duration at 0.01 s. -/
def DT_CTRL : ℚ := 1/100

/-- The `Alert` record of class `Alert`: the twelve constructor
parameters followed by the three fields initialised in the body of
`Alert.__init__` (`start_time = 0.`, `alert_type = ""`,
`event_type = None`).  Statuses, sizes and the visual/audible alert
kinds are members of external `cereal` enums, modelled as naturals;
priorities are the `Priority` IntEnum values 0–5. -/
structure Alert where
  alert_text_1 : String
  alert_text_2 : String
  alert_status : ℕ
  alert_size : ℕ
  alert_priority : ℕ
  visual_alert : ℕ
  audible_alert : ℕ
  duration_sound : ℚ
  duration_hud_alert : ℚ
  duration_text : ℚ
  alert_rate : ℚ
  creation_delay : ℚ
  start_time : ℚ
  alert_type : String
  event_type : Option Category
deriving Repr, DecidableEq

/-- The comparison `Alert.__gt__`: alerts are ordered by `alert_priority`. -/
def Alert.gt (a alert2 : Alert) : Bool :=
  a.alert_priority > alert2.alert_priority

/-- Python exceptions that `create_alerts` can raise: a `KeyError` on a
dictionary lookup, or an exception escaping an alert callback. -/
inductive PyErr where
  | keyError (e : EventID)
  | generatorExc
deriving Repr, DecidableEq

/-- A value of the `EVENTS` catalog's inner dictionaries: either a
concrete `Alert` object or a callback (`isinstance(alert, Alert)`
distinguishes the two).  `α` is the type of the `callback_args`
tuple; a callback raising an exception is an `Except.error` result. -/
inductive AlertTemplate (α : Type) where
  | fixed (a : Alert)
  | callback (f : α → Except PyErr Alert)

/-- Whether a template is a concrete `Alert` (Python's
`isinstance(alert, Alert)`). -/
def AlertTemplate.isFixed {α : Type} : AlertTemplate α → Bool
  | .fixed _ => true
  | .callback _ => false

/-- One per-event dictionary of the catalog (`EVENTS[e]`). -/
abbrev AlertDict (α : Type) := List (Category × AlertTemplate α)

/-- The module-level `EVENTS` dictionary: event id → event type →
template.  Kept as a parameter so that theorems quantify over every
catalog of the source's shape. -/
abbrev Catalog (α : Type) := List (EventID × AlertDict α)

/-- The mutable state of class `Events` (`__init__` fields). -/
structure Events where
  events : List EventID
  static_events : List EventID
  events_prev : List (EventID × ℕ)
deriving Repr, DecidableEq

/-- `Events.__init__`: empty event lists,
`events_prev = dict.fromkeys(EVENTS.keys(), 0)`. -/
def Events.init {α : Type} (cat : Catalog α) : Events :=
  { events := [], static_events := [], events_prev := cat.map (fun kv => (kv.1, 0)) }

/-- `Events.add(event_name, static=False)`. -/
def Events.add (s : Events) (event_name : EventID) (static : Bool) : Events :=
  { s with
    static_events := if static then s.static_events ++ [event_name] else s.static_events,
    events := s.events ++ [event_name] }

/-- `Events.clear()`: advance `events_prev` (increment ids present in
`events`, reset the rest to 0) and reseed `events` from
`static_events`. -/
def Events.clear (s : Events) : Events :=
  { s with
    events_prev := s.events_prev.map (fun kv => (kv.1, if kv.1 ∈ s.events then kv.2 + 1 else 0)),
    events := s.static_events }

/-- `Events.any(event_type)`. -/
def Events.any {α : Type} (cat : Catalog α) (s : Events) (event_type : Category) : Bool :=
  s.events.any (fun e => (alookup ((alookup cat e).getD []) event_type).isSome)

/-- `Events.add_from_msg(events)`: appends each inbound record's
`name.raw` to `events`, with no membership or validity check. -/
def Events.add_from_msg (s : Events) (msgs : List EventID) : Events :=
  { s with events := s.events ++ msgs }

/-- The assignments `alert.alert_type = f"{EVENT_NAME[e]}/{et}"` and
`alert.event_type = et` performed on a selected alert;
`en` models the external `EVENT_NAME` mapping. -/
def stampAlert (en : EventID → String) (e : EventID) (et : Category) (a : Alert) : Alert :=
  { a with alert_type := en e ++ "/" ++ et, event_type := some et }

/-- Inner loop of `Events.create_alerts`, over `event_types`, for one
active event `e` whose catalog dictionary is currently `d`.  `ret` is
the accumulated output list.  A selected concrete template is stamped
in place, which writes the stamped alert back into `d`; a callback
result is a fresh object, so `d` is unchanged.  The debounce test
reads `self.events_prev[e]` (a `KeyError` when absent). -/
def createAlertsInner {α : Type} (en : EventID → String) (args : α)
    (prev : List (EventID × ℕ)) (e : EventID) :
    List Category → AlertDict α → List Alert → Except PyErr (List Alert × AlertDict α)
  | [], d, ret => .ok (ret, d)
  | et :: ets, d, ret =>
    match alookup d et with
    | none => createAlertsInner en args prev e ets d ret
    | some tmpl =>
      match (match tmpl with
             | .fixed a => Except.ok a
             | .callback f => f args) with
      | .error err => .error err
      | .ok alert =>
        match alookup prev e with
        | none => .error (.keyError e)
        | some p =>
          if DT_CTRL * ((p : ℚ) + 1) ≥ alert.creation_delay then
            let alert' := stampAlert en e et alert
            let d' := if tmpl.isFixed then assocSet d et (.fixed alert') else d
            createAlertsInner en args prev e ets d' (ret ++ [alert'])
          else
            createAlertsInner en args prev e ets d ret

/-- Outer loop of `Events.create_alerts`, over `self.events`.
`EVENTS[e]` raises `KeyError` for an id with no catalog entry; the
event's possibly-mutated dictionary is written back into the catalog
(in Python the same object is mutated in place). -/
def createAlertsLoop {α : Type} (en : EventID → String) (args : α)
    (prev : List (EventID × ℕ)) (event_types : List Category) :
    List EventID → Catalog α → List Alert → Except PyErr (List Alert × Catalog α)
  | [], cat, ret => .ok (ret, cat)
  | e :: es, cat, ret =>
    match alookup cat e with
    | none => .error (.keyError e)
    | some d =>
      match createAlertsInner en args prev e event_types d ret with
      | .error err => .error err
      | .ok (ret', d') => createAlertsLoop en args prev event_types es (assocSet cat e d') ret'

/-- `Events.create_alerts(event_types, callback_args)`.  The result is
the returned alert list together with the state of the `Events` object
and of the catalog after the call (the method reads but never assigns
`self.events`, `self.static_events` and `self.events_prev`, so the
returned state is the input state). -/
def Events.create_alerts {α : Type} (cat : Catalog α) (s : Events)
    (event_types : List Category) (args : α) (en : EventID → String) :
    Except PyErr (List Alert × Events × Catalog α) :=
  (createAlertsLoop en args s.events_prev event_types s.events cat []).map
    (fun r => (r.1, s, r.2))

deriving instance DecidableEq for Except

/-- Projection of a `create_alerts` result to the returned alert list
(the value of `ret` the Python method returns). -/
def alertsOut {α : Type} (cat : Catalog α) (s : Events) (event_types : List Category)
    (args : α) (en : EventID → String) : Except PyErr (List Alert) :=
  (Events.create_alerts cat s event_types args en).map (fun r => r.1)

/-- A demo `EVENT_NAME` mapping for concrete scenarios. -/
def enDemo : EventID → String := fun _ => "ev"

/-- A concrete alert with `creation_delay = 0.3` (the spec's
`minDwell = 0.3 s` example), priority `LOWER`. -/
def c1alert : Alert :=
  { alert_text_1 := "a1", alert_text_2 := "", alert_status := 0, alert_size := 1,
    alert_priority := 1, visual_alert := 0, audible_alert := 0, duration_sound := 0,
    duration_hud_alert := 0, duration_text := 2/10, alert_rate := 0,
    creation_delay := 3/10, start_time := 0, alert_type := "", event_type := none }

/-- A catalog with a single event (id 7) carrying `c1alert` for the
`permanent` event type. -/
def c1cat : Catalog Unit := [(7, [("permanent", .fixed c1alert)])]

/-- The `Events` state observed during the n-th consecutive tick on
which event 7 is active (raise, then inspect; `clear` runs between
ticks): `c1tick 1` is the first tick after the event first fires. -/
def c1tick : ℕ → Events
  | 0 => Events.init c1cat
  | 1 => (Events.init c1cat).add 7 false
  | n+2 => ((c1tick (n+1)).clear).add 7 false

/-- Erase the two fields that `create_alerts` stamps onto a selected
alert, restoring their `Alert.__init__` values. -/
def unstampAlert (a : Alert) : Alert :=
  { a with alert_type := "", event_type := none }

/-- Erase the stamped fields of a template's stored alert. -/
def tmplUnstamp {α : Type} : AlertTemplate α → AlertTemplate α
  | .fixed a => .fixed (unstampAlert a)
  | .callback f => .callback f

/-- Erase the stamped fields throughout a per-event dictionary. -/
def dictUnstamp {α : Type} (d : AlertDict α) : AlertDict α := mapSnd tmplUnstamp d

/-- Erase the stamped fields throughout a catalog. -/
def catUnstamp {α : Type} (cat : Catalog α) : Catalog α := mapSnd dictUnstamp cat

/-- Iterated `Events.clear` (`n` successive end-of-tick retirements). -/
def clearIter : ℕ → Events → Events
  | 0, s => s
  | n + 1, s => Events.clear (clearIter n s)

/-- Observable stamp state of a catalog: for every template the stored
`alert_type` of its concrete alert (`none` for a callback).  Used to
witness in-place catalog mutation. -/
def stampView {α : Type} (cat : Catalog α) :
    List (EventID × List (Category × Option String)) :=
  cat.map (fun pd => (pd.1, pd.2.map (fun q => (q.1,
    match q.2 with
    | .fixed a => some a.alert_type
    | .callback _ => none))))

/-- A concrete priority-2 (`LOW`) alert with no creation delay. -/
def c2alert2 : Alert :=
  { alert_text_1 := "low", alert_text_2 := "", alert_status := 0, alert_size := 2,
    alert_priority := 2, visual_alert := 0, audible_alert := 1, duration_sound := 4/10,
    duration_hud_alert := 2, duration_text := 3, alert_rate := 0,
    creation_delay := 0, start_time := 0, alert_type := "", event_type := none }

/-- A concrete priority-4 (`HIGH`) alert with no creation delay. -/
def c2alert4 : Alert :=
  { alert_text_1 := "high", alert_text_2 := "", alert_status := 2, alert_size := 3,
    alert_priority := 4, visual_alert := 1, audible_alert := 3, duration_sound := 22/10,
    duration_hud_alert := 3, duration_text := 4, alert_rate := 0,
    creation_delay := 0, start_time := 0, alert_type := "", event_type := none }

/-- A catalog with two events (ids 1 and 2) both mapping to the
`noEntry` event type, with priorities 2 and 4. -/
def c2cat : Catalog Unit :=
  [(1, [("noEntry", .fixed c2alert2)]), (2, [("noEntry", .fixed c2alert4)])]

/-- Both events of `c2cat` raised in the same tick, in id order. -/
def c2state : Events := ((Events.init c2cat).add 1 false).add 2 false

/-- A catalog whose only template is a callback that raises. -/
def c6cat : Catalog Unit :=
  [(3, [("warning", .callback (fun _ => .error .generatorExc))])]

/-- Event 3 of `c6cat` raised this tick. -/
def c6state : Events := (Events.init c6cat).add 3 false

/-- Spec-side enumeration (for comparison with `create_alerts`): the
candidates one active event contributes, in requested-category order —
a stamped alert for every requested event type whose catalog template
exists and passes the debounce test `tick * (recurrence + 1) ≥ delay`.
Callback templates are outside this enumeration (it is used for
all-concrete catalogs). -/
def specInner {α : Type} (en : EventID → String) (e : EventID) (p : ℕ)
    (d₀ : AlertDict α) : List Category → List Alert
  | [] => []
  | et :: ets =>
    match alookup d₀ et with
    | some (.fixed a) =>
      if DT_CTRL * ((p : ℚ) + 1) ≥ a.creation_delay then
        stampAlert en e et a :: specInner en e p d₀ ets
      else specInner en e p d₀ ets
    | _ => specInner en e p d₀ ets

/-- Spec-side enumeration of a whole resolution pass: every active
event in insertion order contributes its surviving candidates (no
priority selection happens here). -/
def resolveSpec {α : Type} (en : EventID → String) (cat₀ : Catalog α)
    (prev : List (EventID × ℕ)) : List EventID → List Category → List Alert
  | [], _ => []
  | e :: es, ets =>
    (match alookup cat₀ e, alookup prev e with
     | some d₀, some p => specInner en e p d₀ ets
     | _, _ => []) ++ resolveSpec en cat₀ prev es ets

theorem alookup_mapSnd {κ β γ : Type} [DecidableEq κ] (f : β → γ) (l : List (κ × β)) (k : κ) :
    alookup (mapSnd f l) k = (alookup l k).map f := by
  induction l with
  | nil => rfl
  | cons kv rest ih =>
    simp only [mapSnd] at ih ⊢
    by_cases h : kv.1 = k <;> simp [alookup, h, ih]

theorem mapSnd_assocSet {κ β γ : Type} [DecidableEq κ] (f : β → γ) (l : List (κ × β))
    (k : κ) (v : β) : mapSnd f (assocSet l k v) = assocSet (mapSnd f l) k (f v) := by
  induction l with
  | nil => rfl
  | cons kv rest ih =>
    simp only [mapSnd] at ih ⊢
    by_cases h : kv.1 = k <;> simp [assocSet, h, ih]

theorem assocSet_self {κ ν : Type} [DecidableEq κ] {l : List (κ × ν)} {k : κ} {v : ν}
    (h : alookup l k = some v) : assocSet l k v = l := by
  induction l with
  | nil => simp [alookup] at h
  | cons kv rest ih =>
    obtain ⟨k1, v1⟩ := kv
    by_cases hk : k1 = k
    · simp [alookup, hk] at h
      simp [assocSet, hk, h]
    · simp [alookup, hk] at h
      simp [assocSet, hk, ih h]

theorem alookup_mem {κ ν : Type} [DecidableEq κ] {l : List (κ × ν)} {k : κ} {v : ν}
    (h : alookup l k = some v) : (k, v) ∈ l := by
  induction l with
  | nil => simp [alookup] at h
  | cons kv rest ih =>
    obtain ⟨k1, v1⟩ := kv
    by_cases hk : k1 = k
    · simp [alookup, hk] at h
      simp [hk, h]
    · simp [alookup, hk] at h
      exact List.mem_cons_of_mem _ (ih h)

theorem unstampAlert_stampAlert (en : EventID → String) (e : EventID) (et : Category)
    (a : Alert) : unstampAlert (stampAlert en e et a) = unstampAlert a := rfl

theorem unstampAlert_creation_delay {a b : Alert} (h : unstampAlert a = unstampAlert b) :
    a.creation_delay = b.creation_delay := by
  cases a; cases b
  simp [unstampAlert] at h
  simp [h.2.2.2.2.2.2.2.2.2.2.2.1]

theorem stampAlert_congr (en : EventID → String) (e : EventID) (et : Category)
    {a b : Alert} (h : unstampAlert a = unstampAlert b) :
    stampAlert en e et a = stampAlert en e et b := by
  cases a; cases b
  simp only [unstampAlert, Alert.mk.injEq] at h
  simp [stampAlert, h.1, h.2.1, h.2.2.1, h.2.2.2.1, h.2.2.2.2.1, h.2.2.2.2.2.1,
    h.2.2.2.2.2.2.1, h.2.2.2.2.2.2.2.1, h.2.2.2.2.2.2.2.2.1, h.2.2.2.2.2.2.2.2.2.1,
    h.2.2.2.2.2.2.2.2.2.2.1, h.2.2.2.2.2.2.2.2.2.2.2.1, h.2.2.2.2.2.2.2.2.2.2.2.2.1]

theorem createAlertsInner_sound {α : Type} {en : EventID → String} {args : α}
    {prev : List (EventID × ℕ)} {e : EventID} :
    ∀ {ets : List Category} {d : AlertDict α} {acc ret : List Alert} {d' : AlertDict α},
    createAlertsInner en args prev e ets d acc = .ok (ret, d') →
    ∀ a ∈ ret, a ∈ acc ∨ ∃ p, alookup prev e = some p ∧
      DT_CTRL * ((p : ℚ) + 1) ≥ a.creation_delay := by
  intro ets
  induction ets with
  | nil =>
    intro d acc ret d' h a ha
    simp only [createAlertsInner, Except.ok.injEq, Prod.mk.injEq] at h
    exact Or.inl (h.1 ▸ ha)
  | cons et ets ih =>
    intro d acc ret d' h a ha
    simp only [createAlertsInner] at h
    cases hlk : alookup d et with
    | none =>
      rw [hlk] at h
      exact ih h a ha
    | some tmpl =>
      rw [hlk] at h
      cases tmpl with
      | fixed a0 =>
        dsimp only at h
        cases hp : alookup prev e with
        | none => rw [hp] at h; dsimp only at h; simp at h
        | some p =>
          rw [← hp]
          rw [hp] at h
          dsimp only [AlertTemplate.isFixed] at h
          by_cases hdb : DT_CTRL * ((p : ℚ) + 1) ≥ a0.creation_delay
          · rw [if_pos hdb] at h
            rw [if_pos rfl] at h
            rcases ih h a ha with hmem | hex
            · rcases List.mem_append.mp hmem with h1 | h2
              · exact Or.inl h1
              · right
                refine ⟨p, hp, ?_⟩
                rw [List.mem_singleton.mp h2]
                exact hdb
            · exact Or.inr hex
          · rw [if_neg hdb] at h
            exact ih h a ha
      | callback f =>
        dsimp only at h
        cases hf : f args with
        | error err => rw [hf] at h; simp at h
        | ok a0 =>
          rw [hf] at h
          dsimp only at h
          cases hp : alookup prev e with
          | none => rw [hp] at h; dsimp only at h; simp at h
          | some p =>
            rw [← hp]
            rw [hp] at h
            dsimp only [AlertTemplate.isFixed] at h
            by_cases hdb : DT_CTRL * ((p : ℚ) + 1) ≥ a0.creation_delay
            · rw [if_pos hdb] at h
              rw [if_neg (by simp)] at h
              rcases ih h a ha with hmem | hex
              · rcases List.mem_append.mp hmem with h1 | h2
                · exact Or.inl h1
                · right
                  refine ⟨p, hp, ?_⟩
                  rw [List.mem_singleton.mp h2]
                  exact hdb
              · exact Or.inr hex
            · rw [if_neg hdb] at h
              exact ih h a ha

theorem createAlertsLoop_sound {α : Type} {en : EventID → String} {args : α}
    {prev : List (EventID × ℕ)} {event_types : List Category} :
    ∀ {events : List EventID} {cat : Catalog α} {acc ret : List Alert} {cat' : Catalog α},
    createAlertsLoop en args prev event_types events cat acc = .ok (ret, cat') →
    ∀ a ∈ ret, a ∈ acc ∨ ∃ e p, e ∈ events ∧ alookup prev e = some p ∧
      DT_CTRL * ((p : ℚ) + 1) ≥ a.creation_delay := by
  intro events
  induction events with
  | nil =>
    intro cat acc ret cat' h a ha
    simp only [createAlertsLoop, Except.ok.injEq, Prod.mk.injEq] at h
    exact Or.inl (h.1 ▸ ha)
  | cons e es ih =>
    intro cat acc ret cat' h a ha
    simp only [createAlertsLoop] at h
    cases hce : alookup cat e with
    | none => rw [hce] at h; simp at h
    | some d =>
      rw [hce] at h
      dsimp only at h
      cases hin : createAlertsInner en args prev e event_types d acc with
      | error err => rw [hin] at h; simp at h
      | ok rd =>
        obtain ⟨ret1, d1⟩ := rd
        rw [hin] at h
        dsimp only at h
        rcases ih h a ha with hmem | ⟨e', p, he', hp, hdb⟩
        · rcases createAlertsInner_sound hin a hmem with hacc | ⟨p, hp, hdb⟩
          · exact Or.inl hacc
          · exact Or.inr ⟨e, p, List.mem_cons_self e es, hp, hdb⟩
        · exact Or.inr ⟨e', p, List.mem_cons_of_mem e he', hp, hdb⟩

theorem createAlertsInner_unstamp {α : Type} {en : EventID → String} {args : α}
    {prev : List (EventID × ℕ)} {e : EventID} :
    ∀ {ets : List Category} {d : AlertDict α} {acc ret : List Alert} {d' : AlertDict α},
    createAlertsInner en args prev e ets d acc = .ok (ret, d') →
    dictUnstamp d' = dictUnstamp d := by
  intro ets
  induction ets with
  | nil =>
    intro d acc ret d' h
    simp only [createAlertsInner, Except.ok.injEq, Prod.mk.injEq] at h
    rw [h.2]
  | cons et ets ih =>
    intro d acc ret d' h
    simp only [createAlertsInner] at h
    cases hlk : alookup d et with
    | none =>
      rw [hlk] at h
      exact ih h
    | some tmpl =>
      rw [hlk] at h
      cases tmpl with
      | fixed a0 =>
        dsimp only at h
        cases hp : alookup prev e with
        | none => rw [hp] at h; dsimp only at h; simp at h
        | some p =>
          rw [hp] at h
          dsimp only [AlertTemplate.isFixed] at h
          by_cases hdb : DT_CTRL * ((p : ℚ) + 1) ≥ a0.creation_delay
          · rw [if_pos hdb] at h
            rw [if_pos rfl] at h
            rw [ih h]
            unfold dictUnstamp
            rw [mapSnd_assocSet]
            apply assocSet_self
            rw [show mapSnd (tmplUnstamp (α := α)) d = dictUnstamp d from rfl]
            unfold dictUnstamp
            rw [alookup_mapSnd, hlk]
            rw [show tmplUnstamp (.fixed (stampAlert en e et a0)) =
              .fixed (unstampAlert a0) from by
                simp [tmplUnstamp, unstampAlert_stampAlert]]
            rfl
          · rw [if_neg hdb] at h
            exact ih h
      | callback f =>
        dsimp only at h
        cases hf : f args with
        | error err => rw [hf] at h; simp at h
        | ok a0 =>
          rw [hf] at h
          dsimp only at h
          cases hp : alookup prev e with
          | none => rw [hp] at h; dsimp only at h; simp at h
          | some p =>
            rw [hp] at h
            dsimp only [AlertTemplate.isFixed] at h
            by_cases hdb : DT_CTRL * ((p : ℚ) + 1) ≥ a0.creation_delay
            · rw [if_pos hdb] at h
              rw [if_neg (by simp)] at h
              exact ih h
            · rw [if_neg hdb] at h
              exact ih h

theorem createAlertsLoop_unstamp {α : Type} {en : EventID → String} {args : α}
    {prev : List (EventID × ℕ)} {event_types : List Category} :
    ∀ {events : List EventID} {cat : Catalog α} {acc ret : List Alert} {cat' : Catalog α},
    createAlertsLoop en args prev event_types events cat acc = .ok (ret, cat') →
    catUnstamp cat' = catUnstamp cat := by
  intro events
  induction events with
  | nil =>
    intro cat acc ret cat' h
    simp only [createAlertsLoop, Except.ok.injEq, Prod.mk.injEq] at h
    rw [h.2]
  | cons e es ih =>
    intro cat acc ret cat' h
    simp only [createAlertsLoop] at h
    cases hce : alookup cat e with
    | none => rw [hce] at h; simp at h
    | some d =>
      rw [hce] at h
      dsimp only at h
      cases hin : createAlertsInner en args prev e event_types d acc with
      | error err => rw [hin] at h; simp at h
      | ok rd =>
        obtain ⟨ret1, d1⟩ := rd
        rw [hin] at h
        dsimp only at h
        rw [ih h]
        unfold catUnstamp
        rw [mapSnd_assocSet]
        apply assocSet_self
        rw [show mapSnd (dictUnstamp (α := α)) cat = catUnstamp cat from rfl]
        unfold catUnstamp
        rw [alookup_mapSnd, hce]
        rw [createAlertsInner_unstamp hin]
        rfl

theorem createAlertsInner_congr {α : Type} (en : EventID → String) (args : α)
    (prev : List (EventID × ℕ)) (e : EventID) :
    ∀ (ets : List Category) {d₁ d₂ : AlertDict α} (acc : List Alert),
    dictUnstamp d₁ = dictUnstamp d₂ →
    (createAlertsInner en args prev e ets d₁ acc).map Prod.fst =
      (createAlertsInner en args prev e ets d₂ acc).map Prod.fst ∧
    (createAlertsInner en args prev e ets d₁ acc).map (fun r => dictUnstamp r.2) =
      (createAlertsInner en args prev e ets d₂ acc).map (fun r => dictUnstamp r.2) := by
  intro ets
  induction ets with
  | nil =>
    intro d₁ d₂ acc h
    simp only [createAlertsInner]
    refine ⟨rfl, ?_⟩
    simp [Except.map, h]
  | cons et ets ih =>
    intro d₁ d₂ acc h
    replace ih := fun {g₁ g₂ : AlertDict α} (ac : List Alert)
      (hg : dictUnstamp g₁ = dictUnstamp g₂) => @ih g₁ g₂ ac hg
    have hmap : (alookup d₁ et).map tmplUnstamp = (alookup d₂ et).map tmplUnstamp := by
      have h1 := alookup_mapSnd (tmplUnstamp (α := α)) d₁ et
      have h2 := alookup_mapSnd (tmplUnstamp (α := α)) d₂ et
      rw [show mapSnd (tmplUnstamp (α := α)) d₁ = dictUnstamp d₁ from rfl, h] at h1
      rw [show mapSnd (tmplUnstamp (α := α)) d₂ = dictUnstamp d₂ from rfl] at h2
      rw [← h1, ← h2]
    simp only [createAlertsInner]
    cases hlk1 : alookup d₁ et with
    | none =>
      cases hlk2 : alookup d₂ et with
      | none => exact ih _ h
      | some t₂ => rw [hlk1, hlk2] at hmap; simp at hmap
    | some t₁ =>
      cases hlk2 : alookup d₂ et with
      | none => rw [hlk1, hlk2] at hmap; simp at hmap
      | some t₂ =>
        rw [hlk1, hlk2] at hmap
        simp at hmap
        cases t₁ with
        | fixed a₁ =>
          cases t₂ with
          | fixed a₂ =>
            simp only [tmplUnstamp, AlertTemplate.fixed.injEq] at hmap
            dsimp only
            cases hp : alookup prev e with
            | none => simp
            | some p =>
              dsimp only [AlertTemplate.isFixed]
              rw [unstampAlert_creation_delay hmap]
              by_cases hdb : DT_CTRL * ((p : ℚ) + 1) ≥ a₂.creation_delay
              · rw [if_pos hdb, if_pos hdb, if_pos rfl, if_pos rfl]
                rw [stampAlert_congr en e et hmap]
                apply ih _
                unfold dictUnstamp
                rw [mapSnd_assocSet, mapSnd_assocSet]
                rw [show mapSnd (tmplUnstamp (α := α)) d₁ = dictUnstamp d₁ from rfl,
                  show mapSnd (tmplUnstamp (α := α)) d₂ = dictUnstamp d₂ from rfl, h]
              · rw [if_neg hdb, if_neg hdb]
                exact ih _ h
          | callback f₂ => simp [tmplUnstamp] at hmap
        | callback f₁ =>
          cases t₂ with
          | fixed a₂ => simp [tmplUnstamp] at hmap
          | callback f₂ =>
            simp only [tmplUnstamp, AlertTemplate.callback.injEq] at hmap
            subst hmap
            dsimp only
            cases hf : f₁ args with
            | error err => simp
            | ok a0 =>
              dsimp only
              cases hp : alookup prev e with
              | none => simp
              | some p =>
                dsimp only [AlertTemplate.isFixed]
                by_cases hdb : DT_CTRL * ((p : ℚ) + 1) ≥ a0.creation_delay
                · rw [if_pos hdb, if_pos hdb, if_neg (by simp), if_neg (by simp)]
                  exact ih _ h
                · rw [if_neg hdb, if_neg hdb]
                  exact ih _ h

theorem createAlertsLoop_congr {α : Type} {en : EventID → String} {args : α}
    {prev : List (EventID × ℕ)} {event_types : List Category} :
    ∀ {events : List EventID} {cat₁ cat₂ : Catalog α} {acc : List Alert},
    catUnstamp cat₁ = catUnstamp cat₂ →
    (createAlertsLoop en args prev event_types events cat₁ acc).map Prod.fst =
      (createAlertsLoop en args prev event_types events cat₂ acc).map Prod.fst := by
  intro events
  induction events with
  | nil =>
    intro cat₁ cat₂ acc h
    simp [createAlertsLoop, Except.map]
  | cons e es ih =>
    intro cat₁ cat₂ acc h
    have hmap : (alookup cat₁ e).map dictUnstamp = (alookup cat₂ e).map dictUnstamp := by
      have h1 := alookup_mapSnd (dictUnstamp (α := α)) cat₁ e
      have h2 := alookup_mapSnd (dictUnstamp (α := α)) cat₂ e
      rw [show mapSnd (dictUnstamp (α := α)) cat₁ = catUnstamp cat₁ from rfl, h] at h1
      rw [show mapSnd (dictUnstamp (α := α)) cat₂ = catUnstamp cat₂ from rfl] at h2
      rw [← h1, ← h2]
    simp only [createAlertsLoop]
    cases hce1 : alookup cat₁ e with
    | none =>
      cases hce2 : alookup cat₂ e with
      | none => simp
      | some d₂ => rw [hce1, hce2] at hmap; simp at hmap
    | some d₁ =>
      cases hce2 : alookup cat₂ e with
      | none => rw [hce1, hce2] at hmap; simp at hmap
      | some d₂ =>
        rw [hce1, hce2] at hmap
        simp at hmap
        dsimp only
        have hinner := createAlertsInner_congr en args prev e event_types acc hmap
        cases hin1 : createAlertsInner en args prev e event_types d₁ acc with
        | error err =>
          cases hin2 : createAlertsInner en args prev e event_types d₂ acc with
          | error err2 =>
            rw [hin1, hin2] at hinner
            simp [Except.map] at hinner
            simp [Except.map, hinner]
          | ok rd2 => rw [hin1, hin2] at hinner; simp [Except.map] at hinner
        | ok rd1 =>
          cases hin2 : createAlertsInner en args prev e event_types d₂ acc with
          | error err2 => rw [hin1, hin2] at hinner; simp [Except.map] at hinner
          | ok rd2 =>
            obtain ⟨ret1, d1'⟩ := rd1
            obtain ⟨ret2, d2'⟩ := rd2
            rw [hin1, hin2] at hinner
            simp [Except.map] at hinner
            obtain ⟨hret, hd'⟩ := hinner
            subst hret
            dsimp only
            apply ih
            unfold catUnstamp
            rw [mapSnd_assocSet, mapSnd_assocSet]
            rw [show mapSnd (dictUnstamp (α := α)) cat₁ = catUnstamp cat₁ from rfl,
              show mapSnd (dictUnstamp (α := α)) cat₂ = catUnstamp cat₂ from rfl, h, hd']

theorem createAlertsInner_spec {α : Type} (en : EventID → String) (args : α)
    (prev : List (EventID × ℕ)) (e : EventID) (p : ℕ) (d₀ : AlertDict α)
    (hfix : d₀.all (fun q => q.2.isFixed) = true) (hp : alookup prev e = some p) :
    ∀ (ets : List Category) {d : AlertDict α} (acc : List Alert),
    dictUnstamp d = dictUnstamp d₀ →
    ∃ d', createAlertsInner en args prev e ets d acc =
        .ok (acc ++ specInner en e p d₀ ets, d') ∧
      dictUnstamp d' = dictUnstamp d₀ := by
  intro ets
  induction ets with
  | nil =>
    intro d acc h
    exact ⟨d, by simp [createAlertsInner, specInner], h⟩
  | cons et ets ih =>
    intro d acc h
    have hmap : (alookup d et).map tmplUnstamp = (alookup d₀ et).map tmplUnstamp := by
      have h1 := alookup_mapSnd (tmplUnstamp (α := α)) d et
      have h2 := alookup_mapSnd (tmplUnstamp (α := α)) d₀ et
      rw [show mapSnd (tmplUnstamp (α := α)) d = dictUnstamp d from rfl, h] at h1
      rw [show mapSnd (tmplUnstamp (α := α)) d₀ = dictUnstamp d₀ from rfl] at h2
      rw [← h1, ← h2]
    simp only [createAlertsInner, specInner]
    cases hlk0 : alookup d₀ et with
    | none =>
      cases hlk : alookup d et with
      | none => exact ih acc h
      | some t => rw [hlk, hlk0] at hmap; simp at hmap
    | some t₀ =>
      have ht₀ : t₀.isFixed = true :=
        List.all_eq_true.mp hfix _ (alookup_mem hlk0)
      cases t₀ with
      | callback f₀ => simp [AlertTemplate.isFixed] at ht₀
      | fixed a₀ =>
        cases hlk : alookup d et with
        | none => rw [hlk, hlk0] at hmap; simp at hmap
        | some t =>
          rw [hlk, hlk0] at hmap
          simp at hmap
          cases t with
          | callback f => simp [tmplUnstamp] at hmap
          | fixed a =>
            simp only [tmplUnstamp, AlertTemplate.fixed.injEq] at hmap
            dsimp only
            rw [hp]
            dsimp only [AlertTemplate.isFixed]
            rw [unstampAlert_creation_delay hmap]
            by_cases hdb : DT_CTRL * ((p : ℚ) + 1) ≥ a₀.creation_delay
            · rw [if_pos hdb, if_pos hdb, if_pos rfl]
              rw [stampAlert_congr en e et hmap]
              have hnext : dictUnstamp (assocSet d et
                  (AlertTemplate.fixed (stampAlert en e et a₀))) = dictUnstamp d₀ := by
                rw [← h]
                unfold dictUnstamp
                rw [mapSnd_assocSet]
                apply assocSet_self
                rw [show mapSnd (tmplUnstamp (α := α)) d = dictUnstamp d from rfl]
                unfold dictUnstamp
                rw [alookup_mapSnd, hlk]
                simp [tmplUnstamp, unstampAlert_stampAlert, hmap]
              obtain ⟨d', hd', hu⟩ := ih (acc ++ [stampAlert en e et a₀]) hnext
              refine ⟨d', ?_, hu⟩
              rw [hd']
              simp
            · rw [if_neg hdb, if_neg hdb]
              exact ih acc h

theorem createAlertsLoop_spec {α : Type} (en : EventID → String) (args : α)
    (prev : List (EventID × ℕ)) (event_types : List Category) (cat₀ : Catalog α)
    (hfix : cat₀.all (fun pd => pd.2.all (fun q => q.2.isFixed)) = true) :
    ∀ (events : List EventID) {cat : Catalog α} (acc : List Alert),
    catUnstamp cat = catUnstamp cat₀ →
    (∀ e ∈ events, (alookup cat₀ e).isSome ∧ (alookup prev e).isSome) →
    ∃ cat', createAlertsLoop en args prev event_types events cat acc =
        .ok (acc ++ resolveSpec en cat₀ prev events event_types, cat') ∧
      catUnstamp cat' = catUnstamp cat₀ := by
  intro events
  induction events with
  | nil =>
    intro cat acc h _
    exact ⟨cat, by simp [createAlertsLoop, resolveSpec], h⟩
  | cons e es ih =>
    intro cat acc h hdom
    obtain ⟨hc0, hpv⟩ := hdom e (List.mem_cons_self e es)
    obtain ⟨d₀, hd₀⟩ := Option.isSome_iff_exists.mp hc0
    obtain ⟨p, hp⟩ := Option.isSome_iff_exists.mp hpv
    have hmap : (alookup cat e).map dictUnstamp = (alookup cat₀ e).map dictUnstamp := by
      have h1 := alookup_mapSnd (dictUnstamp (α := α)) cat e
      have h2 := alookup_mapSnd (dictUnstamp (α := α)) cat₀ e
      rw [show mapSnd (dictUnstamp (α := α)) cat = catUnstamp cat from rfl, h] at h1
      rw [show mapSnd (dictUnstamp (α := α)) cat₀ = catUnstamp cat₀ from rfl] at h2
      rw [← h1, ← h2]
    have hdfix : d₀.all (fun q => q.2.isFixed) = true :=
      List.all_eq_true.mp hfix _ (alookup_mem hd₀)
    cases hlk : alookup cat e with
    | none => rw [hlk, hd₀] at hmap; simp at hmap
    | some d =>
      rw [hlk, hd₀] at hmap
      simp at hmap
      obtain ⟨d', hd', hu⟩ :=
        createAlertsInner_spec en args prev e p d₀ hdfix hp event_types acc hmap
      have hnext : catUnstamp (assocSet cat e d') = catUnstamp cat₀ := by
        rw [← h]
        unfold catUnstamp
        rw [mapSnd_assocSet]
        apply assocSet_self
        rw [show mapSnd (dictUnstamp (α := α)) cat = catUnstamp cat from rfl]
        unfold catUnstamp
        rw [alookup_mapSnd, hlk]
        rw [hu, ← hmap]
        simp
      obtain ⟨cat', hloop, hcu⟩ := ih (acc ++ specInner en e p d₀ event_types) hnext
        (fun x hx => hdom x (List.mem_cons_of_mem e hx))
      refine ⟨cat', ?_, hcu⟩
      simp only [createAlertsLoop]
      rw [hlk]
      dsimp only
      rw [hd']
      dsimp only
      rw [hloop]
      simp only [resolveSpec]
      rw [hd₀, hp]
      simp

theorem alookup_map_keyed {κ β γ : Type} [DecidableEq κ] (g : κ → β → γ)
    (l : List (κ × β)) (k : κ) :
    alookup (l.map (fun kv => (kv.1, g kv.1 kv.2))) k = (alookup l k).map (g k) := by
  induction l with
  | nil => rfl
  | cons kv rest ih => by_cases h : kv.1 = k <;> simp [alookup, h, ih]

theorem clearIter_static (n : ℕ) (s : Events) :
    (clearIter n s).static_events = s.static_events := by
  induction n with
  | zero => rfl
  | succ n ih => simp [clearIter, Events.clear, ih]

/-- C10: `stotime` formats a nonnegative number of seconds below one
hour as zero-padded `MM:SS`, one hour or more as zero-padded
`HH:MM:SS`, returns `?` for the sentinel `-2` and `N/A` for every
other negative input. -/
theorem C10_stotime (S : ℤ) :
    (0 ≤ S → S < 3600 → stotime S = fmt02 (S / 60) ++ ":" ++ fmt02 (S % 60)) ∧
    (3600 ≤ S → stotime S =
      fmt02 (S / 3600) ++ ":" ++ fmt02 (S % 3600 / 60) ++ ":" ++ fmt02 (S % 60)) ∧
    stotime (-2) = "?" ∧
    (S < 0 → S ≠ -2 → stotime S = "N/A") := by
  refine ⟨?_, ?_, by decide, ?_⟩
  · intro h0 h1
    unfold stotime
    rw [if_neg (by omega), if_neg (by omega), if_neg (by omega), if_neg (by omega)]
    have hm : S % (60 * 60) = S := by omega
    have hd : S / 60 = S % (60 * 60) / 60 := by rw [hm]
    have he : S % 60 = S % (60 * 60) % 60 := by rw [hm]
    rw [hd, he]
  · intro h
    unfold stotime
    rw [if_neg (by omega), if_neg (by omega), if_neg (by omega), if_pos (by omega)]
    have h60 : S % (60 * 60) % 60 = S % 60 := by omega
    have h36 : (60 * 60 : ℤ) = 3600 := by norm_num
    rw [h60, h36]
  · intro h hne
    unfold stotime
    rw [if_neg hne]
    by_cases h1 : S = -1
    · rw [if_pos h1]
    · rw [if_neg h1, if_pos h]

/-- C10 witness: the three hypothetical branches evaluated at 125 s,
3725 s and -7 s. -/
theorem C10_stotime_witness :
    stotime 125 = fmt02 (125 / 60) ++ ":" ++ fmt02 (125 % 60) ∧
    stotime 3725 = fmt02 (3725 / 3600) ++ ":" ++ fmt02 (3725 % 3600 / 60) ++ ":" ++
      fmt02 (3725 % 60) ∧
    stotime (-7) = "N/A" :=
  ⟨(C10_stotime 125).1 (by decide) (by decide),
   (C10_stotime 3725).2.1 (by decide),
   (C10_stotime (-7)).2.2.2 (by decide) (by decide)⟩

/-- C4 counterexample: raising event 5 twice in one tick puts it in
the active sequence twice — `add` has no membership check, so the
claimed no-duplicates invariant fails. -/
theorem C4_counterexample :
    (((Events.init ([] : Catalog Unit)).add 5 false).add 5 false).events = [5, 5] ∧
    (((Events.init ([] : Catalog Unit)).add 5 false).add 5 false).events.count 5 = 2 := by
  decide

/-- C4 amended: `add` appends the event id to `active` unconditionally
— the id is active afterwards, but its multiplicity always grows by
one, so raising twice in a tick duplicates it. -/
theorem C4_add_amended (s : Events) (e : EventID) (st : Bool) :
    e ∈ (Events.add s e st).events ∧
    (Events.add s e st).events.count e = s.events.count e + 1 := by
  constructor
  · simp [Events.add]
  · simp [Events.add, List.count_append]

/-- C9 counterexample: a second `raise(4, persistent=true)` appends id
4 to the persistent sequence again — the state after the second call
differs from the state before it, and the duplicate re-enters `active`
at the next retirement. -/
theorem C9_counterexample :
    (((Events.init ([] : Catalog Unit)).add 4 true).add 4 true).static_events = [4, 4] ∧
    ((Events.init ([] : Catalog Unit)).add 4 true).static_events = [4] ∧
    (Events.clear (((Events.init ([] : Catalog Unit)).add 4 true).add 4 true)).events =
      [4, 4] := by
  decide

/-- C9 amended: a persistent raise is not idempotent: every
`add(e, static=true)` appends `e` to both `static_events` and
`events`, and after two persistent raises of the same id the next
`clear` seeds `active` with the id twice. -/
theorem C9_persistent_amended (s : Events) (e : EventID) :
    (Events.add s e true).static_events.count e = s.static_events.count e + 1 ∧
    (Events.add s e true).events.count e = s.events.count e + 1 ∧
    (Events.clear (Events.add (Events.add s e true) e true)).events.count e =
      s.static_events.count e + 2 := by
  refine ⟨?_, ?_, ?_⟩
  · simp [Events.add, List.count_append]
  · simp [Events.add, List.count_append]
  · simp [Events.add, Events.clear, List.count_append]

theorem clear_events_prev (s : Events) (k : EventID) :
    alookup (Events.clear s).events_prev k =
      (alookup s.events_prev k).map (fun v => if k ∈ s.events then v + 1 else 0) := by
  unfold Events.clear
  exact alookup_map_keyed (fun k v => if k ∈ s.events then v + 1 else 0) s.events_prev k

/-- C3: `clear` (the spec's `retire`) increments the recurrence counter
of every id of its domain that is present in `active` and resets the
rest to 0, and reseeds `active` from the persistent sequence; ids never
raised keep counter 0 and stay inactive over arbitrarily many
retirements, while an id raised once persistently stays active after
every subsequent retirement. -/
theorem C3_retire :
    (∀ (s : Events) (k : EventID) (v : ℕ), alookup s.events_prev k = some v →
      alookup (Events.clear s).events_prev k =
        some (if k ∈ s.events then v + 1 else 0)) ∧
    (∀ s : Events, (Events.clear s).events = s.static_events) ∧
    (∀ (s : Events) (k : EventID) (n : ℕ), alookup s.events_prev k = some 0 →
      k ∉ s.events → k ∉ s.static_events →
      alookup (clearIter n s).events_prev k = some 0 ∧ k ∉ (clearIter n s).events) ∧
    (∀ (s : Events) (e : EventID) (n : ℕ), e ∈ s.static_events →
      e ∈ (clearIter (n + 1) s).events) := by
  refine ⟨?_, fun s => rfl, ?_, ?_⟩
  · intro s k v h
    rw [clear_events_prev, h]
    rfl
  · intro s k n h0 hev hst
    induction n with
    | zero => exact ⟨h0, hev⟩
    | succ n ih =>
      obtain ⟨ih0, ihev⟩ := ih
      constructor
      · show alookup (Events.clear (clearIter n s)).events_prev k = some 0
        rw [clear_events_prev, ih0]
        simp [ihev]
      · show k ∉ (Events.clear (clearIter n s)).events
        show k ∉ (clearIter n s).static_events
        rw [clearIter_static]
        exact hst
  · intro s e n he
    show e ∈ (Events.clear (clearIter n s)).events
    show e ∈ (clearIter n s).static_events
    rw [clearIter_static]
    exact he

/-- C3 witness: the retire semantics evaluated concretely — the counter
advance on a raised event, a never-raised id staying at 0 and inactive
over five retirements, and a persistently raised id still active after
four retirements. -/
theorem C3_retire_witness :
    alookup (Events.clear (c1tick 1)).events_prev 7 =
      some (if 7 ∈ (c1tick 1).events then 0 + 1 else 0) ∧
    (Events.clear c2state).events = c2state.static_events ∧
    (alookup (clearIter 5 ((Events.init c2cat).add 1 false)).events_prev 2 = some 0 ∧
      2 ∉ (clearIter 5 ((Events.init c2cat).add 1 false)).events) ∧
    4 ∈ (clearIter (3 + 1) ((Events.init ([] : Catalog Unit)).add 4 true)).events :=
  ⟨C3_retire.1 (c1tick 1) 7 0 (by decide),
   C3_retire.2.1 c2state,
   C3_retire.2.2.1 ((Events.init c2cat).add 1 false) 2 5 (by decide) (by decide) (by decide),
   C3_retire.2.2.2 ((Events.init ([] : Catalog Unit)).add 4 true) 4 3 (by decide)⟩

/-- C1 counterexample: during the 30th consecutive active tick of an
event with a 0.3 s minimum dwell (tick duration 0.01 s), the stored
recurrence counter is 29 and `29 * 0.01 < 0.3`, yet `create_alerts`
emits the alert — so inclusion is not governed by
`recurrence * tickDuration ≥ minDwell` (the code adds one tick), and
the alert appears one tick before the claimed threshold. -/
theorem C1_counterexample :
    alookup (c1tick 30).events_prev 7 = some 29 ∧
    ¬ ((29 : ℚ) * DT_CTRL ≥ c1alert.creation_delay) ∧
    alertsOut c1cat (c1tick 30) ["permanent"] () enDemo =
      .ok [stampAlert enDemo 7 "permanent" c1alert] := by
  decide

/-- C1 amended: an alert reaches the output only if
`tickDuration * (recurrence + 1) ≥ creation_delay` — the current tick
is counted on top of the stored recurrence; consequently an event with
a 0.3 s minimum dwell at 0.01 s ticks is suppressed during its first
29 active ticks and appears from the 30th consecutive active tick on,
the first tick with `(recurrence + 1) * tickDuration ≥ 0.3`. -/
theorem C1_debounce_amended :
    (∀ (α : Type) (cat : Catalog α) (s : Events) (ets : List Category) (args : α)
      (en : EventID → String) (ret : List Alert) (s' : Events) (cat' : Catalog α)
      (a : Alert), Events.create_alerts cat s ets args en = .ok (ret, s', cat') →
      a ∈ ret → ∃ e p, e ∈ s.events ∧ alookup s.events_prev e = some p ∧
        DT_CTRL * ((p : ℚ) + 1) ≥ a.creation_delay) ∧
    (∀ n, n < 29 → alertsOut c1cat (c1tick (n + 1)) ["permanent"] () enDemo = .ok []) ∧
    alertsOut c1cat (c1tick 30) ["permanent"] () enDemo =
      .ok [stampAlert enDemo 7 "permanent" c1alert] := by
  refine ⟨?_, by decide, by decide⟩
  intro α cat s ets args en ret s' cat' a h ha
  unfold Events.create_alerts at h
  cases hl : createAlertsLoop en args s.events_prev ets s.events cat [] with
  | error err => rw [hl] at h; simp [Except.map] at h
  | ok r =>
    obtain ⟨r1, r2⟩ := r
    rw [hl] at h
    simp [Except.map] at h
    obtain ⟨h1, _, _⟩ := h
    rw [← h1] at ha
    rcases createAlertsLoop_sound hl a ha with hacc | ⟨e, p, he, hp, hdb⟩
    · simp at hacc
    · exact ⟨e, p, he, hp, hdb⟩

/-- C1 witness: the debounce bound instantiated at the 30th active tick
of the 0.3 s minimum-dwell scenario. -/
theorem C1_debounce_witness :
    ∃ e p, e ∈ (c1tick 30).events ∧ alookup (c1tick 30).events_prev e = some p ∧
      DT_CTRL * ((p : ℚ) + 1) ≥ (stampAlert enDemo 7 "permanent" c1alert).creation_delay :=
  C1_debounce_amended.1 Unit c1cat (c1tick 30) ["permanent"] () enDemo
    [stampAlert enDemo 7 "permanent" c1alert] (c1tick 30)
    [(7, [("permanent", .fixed (stampAlert enDemo 7 "permanent" c1alert))])]
    (stampAlert enDemo 7 "permanent" c1alert) rfl (by simp)

/-- C2 counterexample: two active events mapping to the same requested
category with priorities 2 and 4 — `create_alerts` returns both alerts
(the priority-2 one first), not only the maximum-priority one. -/
theorem C2_counterexample :
    (alertsOut c2cat c2state ["noEntry"] () enDemo).map
      (fun l => l.map (fun a => a.alert_priority)) = .ok [2, 4] := by
  decide

/-- C2 amended: `create_alerts` performs no priority selection — for an
all-concrete catalog whose active events are known it returns every
candidate surviving debounce, active events in insertion order and
requested categories in request order (`resolveSpec`); picking a
maximum is left to the caller, for which `Alert.__gt__` orders alerts
by priority (so the priority-4 alert of the example wins a caller-side
comparison against the priority-2 one, which is also returned). -/
theorem C2_priority_amended :
    (∀ (α : Type) (en : EventID → String) (args : α) (cat : Catalog α) (s : Events)
      (ets : List Category),
      cat.all (fun pd => pd.2.all (fun q => q.2.isFixed)) = true →
      (∀ e ∈ s.events, (alookup cat e).isSome ∧ (alookup s.events_prev e).isSome) →
      ∃ cat', Events.create_alerts cat s ets args en =
        .ok (resolveSpec en cat s.events_prev s.events ets, s, cat')) ∧
    alertsOut c2cat c2state ["noEntry"] () enDemo =
      .ok [stampAlert enDemo 1 "noEntry" c2alert2, stampAlert enDemo 2 "noEntry" c2alert4] ∧
    Alert.gt (stampAlert enDemo 2 "noEntry" c2alert4)
      (stampAlert enDemo 1 "noEntry" c2alert2) = true := by
  refine ⟨?_, by decide, by decide⟩
  intro α en args cat s ets hfix hdom
  obtain ⟨cat', hloop, _⟩ :=
    createAlertsLoop_spec en args s.events_prev ets cat hfix s.events [] rfl hdom
  refine ⟨cat', ?_⟩
  unfold Events.create_alerts
  rw [hloop]
  simp [Except.map]

/-- C2 witness: the enumeration theorem instantiated on the
priority-2/priority-4 scenario. -/
theorem C2_priority_witness :
    ∃ cat', Events.create_alerts c2cat c2state ["noEntry"] () enDemo =
      .ok (resolveSpec enDemo c2cat c2state.events_prev c2state.events ["noEntry"],
        c2state, cat') :=
  C2_priority_amended.1 Unit enDemo () c2cat c2state ["noEntry"] (by decide) (by decide)

/-- C5: `create_alerts` never changes the `Events` state (`events`,
`static_events`, `events_prev`), and calling it again in the same tick
— on the catalog as the first call left it — returns the identical
alert list and state. -/
theorem C5_purity (α : Type) (cat : Catalog α) (s : Events) (ets : List Category)
    (args : α) (en : EventID → String) (ret : List Alert) (s' : Events)
    (cat' : Catalog α)
    (h : Events.create_alerts cat s ets args en = .ok (ret, s', cat')) :
    s' = s ∧ ∃ cat'', Events.create_alerts cat' s ets args en = .ok (ret, s, cat'') := by
  unfold Events.create_alerts at h ⊢
  cases hl : createAlertsLoop en args s.events_prev ets s.events cat [] with
  | error err => rw [hl] at h; simp [Except.map] at h
  | ok r =>
    obtain ⟨r1, r2⟩ := r
    rw [hl] at h
    simp [Except.map] at h
    obtain ⟨h1, h2, h3⟩ := h
    refine ⟨h2.symm, ?_⟩
    have hcu : catUnstamp cat' = catUnstamp cat := by
      rw [← h3]
      exact createAlertsLoop_unstamp hl
    have hc : (createAlertsLoop en args s.events_prev ets s.events cat' []).map Prod.fst =
        (createAlertsLoop en args s.events_prev ets s.events cat []).map Prod.fst :=
      createAlertsLoop_congr hcu
    rw [hl] at hc
    cases hl' : createAlertsLoop en args s.events_prev ets s.events cat' [] with
    | error err => rw [hl'] at hc; simp [Except.map] at hc
    | ok r' =>
      obtain ⟨r1', r2'⟩ := r'
      rw [hl'] at hc
      simp [Except.map] at hc
      exact ⟨r2', by simp [Except.map, hc, h1]⟩

/-- C5 witness: repeatability on the minimum-dwell scenario at its 30th
active tick, the second call running on the stamped catalog. -/
theorem C5_purity_witness :
    c1tick 30 = c1tick 30 ∧ ∃ cat'', Events.create_alerts
      [(7, [("permanent", .fixed (stampAlert enDemo 7 "permanent" c1alert))])]
      (c1tick 30) ["permanent"] () enDemo =
      .ok ([stampAlert enDemo 7 "permanent" c1alert], c1tick 30, cat'') :=
  C5_purity Unit c1cat (c1tick 30) ["permanent"] () enDemo
    [stampAlert enDemo 7 "permanent" c1alert] (c1tick 30)
    [(7, [("permanent", .fixed (stampAlert enDemo 7 "permanent" c1alert))])] rfl

/-- C6 counterexample: with the only active event's template a callback
that raises, `create_alerts` propagates the exception — the tick
aborts with an error instead of producing a fallback alert. -/
theorem C6_counterexample :
    alertsOut c6cat c6state ["warning"] () enDemo = .error .generatorExc := by
  decide

/-- C6 amended: an exception raised by an alert callback aborts
`create_alerts` — the exception propagates unchanged; no fallback
alert is substituted and no fault counter exists. -/
theorem C6_generator_amended (α : Type) (en : EventID → String) (args : α)
    (cat : Catalog α) (s : Events) (e : EventID) (rest : List EventID)
    (d : AlertDict α) (et : Category) (f : α → Except PyErr Alert) (err : PyErr)
    (hev : s.events = e :: rest) (hcat : alookup cat e = some d)
    (hd : alookup d et = some (.callback f)) (hf : f args = .error err) :
    Events.create_alerts cat s [et] args en = .error err := by
  unfold Events.create_alerts
  rw [hev]
  simp only [createAlertsLoop]
  rw [hcat]
  dsimp only
  simp only [createAlertsInner]
  rw [hd]
  dsimp only
  rw [hf]
  rfl

/-- C6 witness: the fault-propagation theorem instantiated on the
raising-callback catalog. -/
theorem C6_generator_witness :
    Events.create_alerts c6cat c6state ["warning"] () enDemo =
      .error .generatorExc :=
  C6_generator_amended Unit enDemo () c6cat c6state 3 []
    [("warning", .callback (fun _ => .error .generatorExc))] "warning"
    (fun _ => .error .generatorExc) .generatorExc rfl rfl rfl rfl

/-- C7 counterexample: an inbound record with unknown id 99 is appended
to `active` (not dropped), and the next `create_alerts` call raises
`KeyError` on it — ingestion of unknown ids is neither ignored nor
non-fatal. -/
theorem C7_counterexample :
    (Events.add_from_msg (Events.init c1cat) [99]).events = [99] ∧
    alertsOut c1cat (Events.add_from_msg (Events.init c1cat) [99]) ["noEntry"] () enDemo =
      .error (.keyError 99) := by
  decide

/-- C7 amended: `add_from_msg` appends every inbound record's id to
`active` unconditionally (no universe check, no diagnostic counter),
and a subsequent `create_alerts` with an unknown id at the head of
`active` raises `KeyError` on the catalog lookup. -/
theorem C7_ingest_amended :
    (∀ (s : Events) (msgs : List EventID),
      (Events.add_from_msg s msgs).events = s.events ++ msgs) ∧
    (∀ (α : Type) (en : EventID → String) (args : α) (cat : Catalog α) (s : Events)
      (u : EventID) (rest : List EventID) (ets : List Category),
      s.events = u :: rest → alookup cat u = none →
      Events.create_alerts cat s ets args en = .error (.keyError u)) := by
  refine ⟨fun s msgs => rfl, ?_⟩
  intro α en args cat s u rest ets hev hcat
  unfold Events.create_alerts
  rw [hev]
  simp only [createAlertsLoop]
  rw [hcat]
  rfl

/-- C7 witness: the `KeyError` theorem instantiated on id 99 ingested
into the single-event catalog. -/
theorem C7_ingest_witness :
    Events.create_alerts c1cat (Events.add_from_msg (Events.init c1cat) [99])
      ["noEntry"] () enDemo = .error (.keyError 99) :=
  C7_ingest_amended.2 Unit enDemo () c1cat
    (Events.add_from_msg (Events.init c1cat) [99]) 99 [] ["noEntry"] rfl rfl

/-- C8 counterexample: after one `create_alerts` call the catalog's
stored alert for event 7 carries `alert_type = "ev/permanent"`,
whereas at startup it was the empty string — the engine mutates the
catalog in place. -/
theorem C8_counterexample :
    (Events.create_alerts c1cat (c1tick 30) ["permanent"] () enDemo).map
      (fun r => stampView r.2.2) =
      .ok [(7, [("permanent", some "ev/permanent")])] ∧
    stampView c1cat = [(7, [("permanent", some "")])] := by
  decide

/-- C8 amended: `create_alerts` is the only operation touching the
catalog and it only rewrites the `alert_type`/`event_type` stamp fields
of concrete templates — the catalog with stamps erased is invariant
across any call. -/
theorem C8_catalog_amended (α : Type) (cat : Catalog α) (s : Events)
    (ets : List Category) (args : α) (en : EventID → String) (ret : List Alert)
    (s' : Events) (cat' : Catalog α)
    (h : Events.create_alerts cat s ets args en = .ok (ret, s', cat')) :
    catUnstamp cat' = catUnstamp cat := by
  unfold Events.create_alerts at h
  cases hl : createAlertsLoop en args s.events_prev ets s.events cat [] with
  | error err => rw [hl] at h; simp [Except.map] at h
  | ok r =>
    obtain ⟨r1, r2⟩ := r
    rw [hl] at h
    simp [Except.map] at h
    rw [← h.2.2]
    exact createAlertsLoop_unstamp hl

/-- C8 witness: the stamp-erased invariance instantiated on the
minimum-dwell scenario. -/
theorem C8_catalog_witness :
    catUnstamp [(7, [("permanent", .fixed (stampAlert enDemo 7 "permanent" c1alert))])] =
      catUnstamp c1cat :=
  C8_catalog_amended Unit c1cat (c1tick 30) ["permanent"] () enDemo
    [stampAlert enDemo 7 "permanent" c1alert] (c1tick 30)
    [(7, [("permanent", .fixed (stampAlert enDemo 7 "permanent" c1alert))])] rfl

